import Mathlib

/-!
# Verification of the miso-lims domain core

Shallow embedding of the `miso-domain` crate (value objects, entities and
domain services) together with proofs of the specified properties.

Modelling conventions:
* Rust `u8` / `u32` / `usize` values are modelled as `Nat`; where the source
  performs wrapping `u8` arithmetic or truncating casts, the embedding applies
  `% 256` explicitly.
* Rust `i32` (`EntityId`) is modelled as `Int`.
* Rust `char` is modelled as the `Nat` code point where arithmetic is done on
  it (storage positions), and as Lean `Char` inside strings.
* Rust `f64` quantities (volumes, concentrations, proportions) are modelled as
  exact rationals `ℚ`; the operations the claims exercise (subtraction and
  sign tests on representable values) agree with the IEEE semantics there.
* `&mut self` methods returning `Result<(), E>` are modelled as functions
  returning the post-state paired with the result (the post-state equals the
  input state whenever the source returns early before mutating), or as
  `Except E State` when the source never mutates before a failure.
* Timestamp capture (`Utc::now()`) is modelled by an explicit `now : Nat`
  argument to every mutating operation.
* `HashMap<BoxPosition, StorableItem>` is modelled as an association list
  whose keys are kept unique by the operations themselves.
-/

deriving instance DecidableEq for Except

namespace Miso

/-- Rust `char::to_ascii_uppercase` on a code point: maps `a`..`z` to
`A`..`Z` and leaves everything else unchanged. -/
def asciiUpper (c : Nat) : Nat :=
  if 97 ≤ c ∧ c ≤ 122 then c - 32 else c

/-! ## value_objects/position.rs -/

/-- `Dimension { rows: u8, cols: u8 }`.  Both fields are `u8` in the source,
hence `< 256`; theorems carry those bounds as hypotheses. -/
structure Dimension where
  rows : Nat
  cols : Nat
deriving DecidableEq, Repr

/-- `BoxPosition { row: char, col: u8 }`; the row character is stored as its
code point. -/
structure BoxPosition where
  row : Nat
  col : Nat
deriving DecidableEq, Repr

/-- `Dimension::capacity`: `rows * cols`. -/
def Dimension.capacity (d : Dimension) : Nat :=
  d.rows * d.cols

/-- `Dimension::is_valid_position`.  `row_upper as u8 - b'A'` is a truncating
cast followed by wrapping `u8` subtraction, modelled mod 256. -/
def Dimension.is_valid_position (d : Dimension) (row col : Nat) : Bool :=
  let row_upper := asciiUpper row
  let row_num := (row_upper % 256 + 256 - 65) % 256
  decide (row_num < d.rows) && decide (1 ≤ col) && decide (col ≤ d.cols)

/-- `BoxPosition::new_unchecked`: uppercases the row, no validation. -/
def BoxPosition.new_unchecked (row col : Nat) : BoxPosition :=
  { row := asciiUpper row, col := col }

/-- `Dimension::index_to_position`: row-major decoding of a linear index.
The `as u8` casts truncate mod 256 and `b'A' + row` is wrapping `u8`
addition. -/
def Dimension.index_to_position (d : Dimension) (index : Nat) : Option BoxPosition :=
  if d.capacity ≤ index then none
  else
    let row := (index / d.cols) % 256
    let col := ((index % d.cols) % 256 + 1) % 256
    let row_char := (65 + row) % 256
    some (BoxPosition.new_unchecked row_char col)

/-- `BoxPosition::row_index`: `self.row as u8 - b'A'` (truncating cast,
wrapping subtraction). -/
def BoxPosition.row_index (p : BoxPosition) : Nat :=
  (p.row % 256 + 256 - 65) % 256

/-- `BoxPosition::to_index`: `row_index * cols + (col - 1)` with wrapping
`u8` subtraction on `col - 1`. -/
def BoxPosition.to_index (p : BoxPosition) (d : Dimension) : Nat :=
  p.row_index * d.cols + (p.col % 256 + 256 - 1) % 256

end Miso

namespace Miso

/-! ## value_objects/dna_index.rs -/

/-- `IndexFamily`. -/
inductive IndexFamily where
  | TruSeq
  | Nextera
  | IdtUdi
  | TenX
  | Custom
deriving DecidableEq, Repr

/-- `DnaIndex { i7_sequence, i5_sequence, family, name }`. -/
structure DnaIndex where
  i7_sequence : String
  i5_sequence : Option String
  family : IndexFamily
  name : String
deriving DecidableEq, Repr

/-- `LibraryError` (errors.rs). -/
inductive LibraryError where
  | InvalidDesign (msg : String)
  | MissingIndex (msg : String)
  | InvalidIndexSequence (msg : String)
  | Exhausted (msg : String)
  | InvalidKitType (msg : String)
  | AlreadyPooled (lib pool : String)
deriving DecidableEq, Repr

/-- `DnaIndex::validate_sequence`: non-empty and only `{A,C,G,T,N}`. -/
def DnaIndex.validate_sequence (seq : String) : Except LibraryError Unit :=
  if seq.data.isEmpty then
    .error (.InvalidIndexSequence "Index sequence cannot be empty")
  else if ¬ (seq.data.all fun c => c == 'A' || c == 'C' || c == 'G' || c == 'T' || c == 'N') then
    .error (.InvalidIndexSequence ("Invalid characters in sequence: " ++ seq))
  else
    .ok ()

/-- Rust `str::to_uppercase`, restricted to the ASCII letters that DNA
sequences contain. -/
def rustUpper (s : String) : String :=
  String.mk (s.data.map Char.toUpper)

/-- `DnaIndex::single`. -/
def DnaIndex.single (name i7_sequence : String) (family : IndexFamily) :
    Except LibraryError DnaIndex :=
  let i7 := rustUpper i7_sequence
  match DnaIndex.validate_sequence i7 with
  | .error e => .error e
  | .ok _ => .ok { i7_sequence := i7, i5_sequence := none, family := family, name := name }

/-- `DnaIndex::dual`. -/
def DnaIndex.dual (name i7_sequence i5_sequence : String) (family : IndexFamily) :
    Except LibraryError DnaIndex :=
  let i7 := rustUpper i7_sequence
  let i5 := rustUpper i5_sequence
  match DnaIndex.validate_sequence i7 with
  | .error e => .error e
  | .ok _ =>
    match DnaIndex.validate_sequence i5 with
    | .error e => .error e
    | .ok _ => .ok { i7_sequence := i7, i5_sequence := some i5, family := family, name := name }

/-- `DnaIndex::sequence_hamming_distance`:
`a.chars().zip(b.chars()).filter(|(ca, cb)| ca != cb).count()`. -/
def DnaIndex.sequence_hamming_distance (a b : String) : Nat :=
  ((a.data.zip b.data).filter fun p => p.1 != p.2).length

/-- `DnaIndex::hamming_distance`: i7 mismatches plus i5 mismatches when both
indices carry an i5 strand, else just the i7 term. -/
def DnaIndex.hamming_distance (self other : DnaIndex) : Nat :=
  let i7_dist := DnaIndex.sequence_hamming_distance self.i7_sequence other.i7_sequence
  let i5_dist :=
    match self.i5_sequence, other.i5_sequence with
    | some a, some b => DnaIndex.sequence_hamming_distance a b
    | _, _ => 0
  i7_dist + i5_dist

/-- Specification-side mismatch count: the number of positions `j` below the
shorter of the two lengths at which the sequences disagree (written over
positions rather than over the zipped list, so it can be compared with the
implementation). -/
def mismatchCount (a b : List Char) : Nat :=
  (List.range (min a.length b.length)).countP fun j => a.getD j 'A' != b.getD j 'A'

/-! ## entities/box_entity.rs and errors.rs (storage part) -/

/-- `EntityId = i32`. -/
abbrev EntityId := Int

/-- `StorableType`. -/
inductive StorableType where
  | Sample
  | Library
  | LibraryAliquot
  | Pool
deriving DecidableEq, Repr

/-- `StorableItem { item_type, item_id }`. -/
structure StorableItem where
  item_type : StorableType
  item_id : EntityId
deriving DecidableEq, Repr

/-- `StorageError` (errors.rs); `char` and `u8` payloads carried as `Nat`. -/
inductive StorageError where
  | PositionOccupied (box_name : String) (row col : Nat)
  | InvalidPosition (row col rows cols : Nat)
  | BoxFull (name : String)
  | ItemNotInBox (item box : String)
  | IncompatibleStorageTypes
deriving DecidableEq, Repr

/-- `BoxPosition::new`: validates against the given dimension. -/
def BoxPosition.new (row col : Nat) (dimension : Dimension) :
    Except StorageError BoxPosition :=
  let row_upper := asciiUpper row
  if ¬ dimension.is_valid_position row_upper col then
    .error (.InvalidPosition row_upper col dimension.rows dimension.cols)
  else
    .ok { row := row_upper, col := col }

/-- `StorageLocation`. -/
structure StorageLocation where
  freezer : Option String
  shelf : Option String
  rack : Option String
  temperature : Option Int
deriving DecidableEq, Repr

/-- `StorageLocation::new`. -/
def StorageLocation.new : StorageLocation :=
  { freezer := none, shelf := none, rack := none, temperature := none }

/-- `StorageBox`; the `HashMap<BoxPosition, StorableItem>` contents are an
association list whose keys the operations keep unique. -/
structure StorageBox where
  id : EntityId
  name : String
  barcode : Option String
  dimension : Dimension
  location : StorageLocation
  storable_type : StorableType
  contents : List (BoxPosition × StorableItem)
  description : Option String
  created_at : Nat
  updated_at : Nat
deriving DecidableEq, Repr

/-- `StorageBox::new`. -/
def StorageBox.new (id : EntityId) (name : String) (dimension : Dimension)
    (storable_type : StorableType) (now : Nat) : StorageBox :=
  { id := id, name := name, barcode := none, dimension := dimension,
    location := StorageLocation.new, storable_type := storable_type,
    contents := [], description := none, created_at := now, updated_at := now }

/-- `HashMap::get` on the association-list model. -/
def contentsGet (contents : List (BoxPosition × StorableItem)) (position : BoxPosition) :
    Option StorableItem :=
  (contents.find? fun e => decide (e.1 = position)).map (·.2)

/-- `HashMap::remove`'s effect on the map (the removed value is
`contentsGet`). -/
def contentsRemove (contents : List (BoxPosition × StorableItem)) (position : BoxPosition) :
    List (BoxPosition × StorableItem) :=
  contents.filter fun e => decide (e.1 ≠ position)

/-- `StorageBox::is_occupied`. -/
def StorageBox.is_occupied (b : StorageBox) (position : BoxPosition) : Bool :=
  (contentsGet b.contents position).isSome

/-- `StorageBox::get_item`. -/
def StorageBox.get_item (b : StorageBox) (position : BoxPosition) : Option StorableItem :=
  contentsGet b.contents position

/-- `StorageBox::place_item`: type check, then bounds check, then occupancy
check, then insert. -/
def StorageBox.place_item (b : StorageBox) (position : BoxPosition)
    (item : StorableItem) (now : Nat) : Except StorageError StorageBox :=
  if item.item_type ≠ b.storable_type then
    .error .IncompatibleStorageTypes
  else if ¬ b.dimension.is_valid_position position.row position.col then
    .error (.InvalidPosition position.row position.col b.dimension.rows b.dimension.cols)
  else if b.is_occupied position then
    .error (.PositionOccupied b.name position.row position.col)
  else
    .ok { b with contents := (position, item) :: b.contents, updated_at := now }

/-- `StorageBox::remove_item`: returns the post-state and the removed item;
`updated_at` is bumped only when something was removed. -/
def StorageBox.remove_item (b : StorageBox) (position : BoxPosition) (now : Nat) :
    StorageBox × Option StorableItem :=
  let item := contentsGet b.contents position
  match item with
  | some it =>
      ({ b with contents := contentsRemove b.contents position, updated_at := now }, some it)
  | none =>
      ({ b with contents := contentsRemove b.contents position }, none)

/-- The position label `format!("{}{}", from.row(), from.col())` used in the
`ItemNotInBox` error. -/
def positionLabel (p : BoxPosition) : String :=
  String.singleton (Char.ofNat p.row) ++ toString p.col

/-- `StorageBox::move_item`: occupancy check on `to`, then removal of `from`
(error if nothing is there), then insertion at `to`.  Note that the source
never validates `to` against the box dimension. -/
def StorageBox.move_item (b : StorageBox) (fromPos toPos : BoxPosition) (now : Nat) :
    Except StorageError StorageBox :=
  if b.is_occupied toPos then
    .error (.PositionOccupied b.name toPos.row toPos.col)
  else
    match contentsGet b.contents fromPos with
    | none => .error (.ItemNotInBox (positionLabel fromPos) b.name)
    | some item =>
        .ok { b with
                contents := (toPos, item) :: contentsRemove b.contents fromPos,
                updated_at := now }

/-- The §3 StorageBox invariant: every stored item's type equals the box's
`storable_type`, every occupied position is within the `Dimension` bounds,
and no two items share a position. -/
def StorageBox.box_invariant (b : StorageBox) : Prop :=
  (∀ e ∈ b.contents, e.2.item_type = b.storable_type) ∧
  (∀ e ∈ b.contents, b.dimension.is_valid_position e.1.row e.1.col = true) ∧
  (b.contents.map Prod.fst).Nodup

instance (b : StorageBox) : Decidable b.box_invariant := by
  unfold StorageBox.box_invariant
  infer_instance

/-- One box operation together with its arguments (used to state invariant
preservation over arbitrary call sequences). -/
inductive BoxOp where
  | place (position : BoxPosition) (item : StorableItem) (now : Nat)
  | remove (position : BoxPosition) (now : Nat)
  | move (fromPos toPos : BoxPosition) (now : Nat)
deriving DecidableEq, Repr

/-- Runs one operation; a failed `place_item`/`move_item` leaves the box as
the source leaves `self` (unchanged). -/
def StorageBox.apply_op (b : StorageBox) : BoxOp → StorageBox
  | .place position item now =>
      match b.place_item position item now with
      | .ok b' => b'
      | .error _ => b
  | .remove position now => (b.remove_item position now).1
  | .move fromPos toPos now =>
      match b.move_item fromPos toPos now with
      | .ok b' => b'
      | .error _ => b

/-- An operation is bounds-respecting for dimension `d` when, if it is a
`move`, its destination lies within `d`. -/
def BoxOp.destInBounds (d : Dimension) : BoxOp → Prop
  | .move _ toPos _ => d.is_valid_position toPos.row toPos.col = true
  | _ => True

instance (d : Dimension) : (op : BoxOp) → Decidable (op.destInBounds d)
  | .place _ _ _ => by unfold BoxOp.destInBounds; infer_instance
  | .remove _ _ => by unfold BoxOp.destInBounds; infer_instance
  | .move _ _ _ => by unfold BoxOp.destInBounds; infer_instance

/-! ## value_objects/qc_status.rs, volume.rs, concentration.rs, barcode.rs -/

/-- `QcStatus`. -/
inductive QcStatus where
  | NotReady
  | Ready
  | Passed
  | Failed
  | NeedsReview
deriving DecidableEq, Repr

/-- `QcStatus::allows_progression`. -/
def QcStatus.allows_progression : QcStatus → Bool
  | .Passed => true
  | _ => false

/-- `VolumeUnit`. -/
inductive VolumeUnit where
  | Microliters
  | Milliliters
  | Nanoliters
deriving DecidableEq, Repr

/-- `VolumeUnit::to_ul_factor` (the `f64` factors as exact rationals). -/
def VolumeUnit.to_ul_factor : VolumeUnit → ℚ
  | .Microliters => 1
  | .Milliliters => 1000
  | .Nanoliters => 1 / 1000

/-- `Volume { value_ul: f64, display_unit }`; the magnitude is an exact
rational. -/
structure Volume where
  value_ul : ℚ
  display_unit : VolumeUnit
deriving DecidableEq, Repr

/-- `Volume::new` (the source asserts `value >= 0.0`, panicking otherwise;
the model is meaningful only for non-negative magnitudes, which is all the
source ever constructs). -/
def Volume.new (value : ℚ) (unit : VolumeUnit) : Volume :=
  { value_ul := value * unit.to_ul_factor, display_unit := unit }

/-- `Volume::microliters`. -/
def Volume.microliters (value : ℚ) : Volume :=
  Volume.new value .Microliters

/-- `Volume::milliliters`. -/
def Volume.milliliters (value : ℚ) : Volume :=
  Volume.new value .Milliliters

/-- `Volume::has_sufficient`. -/
def Volume.has_sufficient (v required : Volume) : Bool :=
  decide (required.value_ul ≤ v.value_ul)

/-- `Volume::subtract`: `None` when the remainder would be negative. -/
def Volume.subtract (v amount : Volume) : Option Volume :=
  let remaining := v.value_ul - amount.value_ul
  if remaining < 0 then none
  else some { value_ul := remaining, display_unit := v.display_unit }

/-- `ConcentrationUnit`. -/
inductive ConcentrationUnit where
  | NgPerUl
  | Picomolar
  | Nanomolar
  | UgPerMl
deriving DecidableEq, Repr

/-- `Concentration { value: f64, unit }`. -/
structure Concentration where
  value : ℚ
  unit : ConcentrationUnit
deriving DecidableEq, Repr

/-- `BarcodeError` (errors.rs). -/
inductive BarcodeError where
  | InvalidFormat (msg : String)
  | AlreadyInUse (barcode : String)
  | PatternMismatch (barcode pattern : String)
  | Empty
  | InvalidCharacters (barcode : String)
deriving DecidableEq, Repr

/-- `Barcode(String)`. -/
structure Barcode where
  val : String
deriving DecidableEq, Repr

/-- `Barcode::new`: non-empty and only alphanumerics, `-`, `_`.  (Rust's
`char::is_alphanumeric` is Unicode-aware; the model uses the ASCII
`Char.isAlphanum`, which agrees on the ASCII barcodes the system uses.) -/
def Barcode.new (value : String) : Except BarcodeError Barcode :=
  if value.data.isEmpty then .error .Empty
  else if ¬ (value.data.all fun c => c.isAlphanum || c == '-' || c == '_') then
    .error (.InvalidCharacters value)
  else .ok { val := value }

/-- `Barcode::new_unchecked`. -/
def Barcode.new_unchecked (value : String) : Barcode :=
  { val := value }

/-! ## entities/library.rs -/

/-- `LibraryDesign`. -/
inductive LibraryDesign where
  | Wgs
  | Wes
  | RnaSeq
  | TargetedPanel
  | ChipSeq
  | AtacSeq
  | Methylation
  | SingleCellRna
  | SingleCellAtac
  | Custom (name : String)
deriving DecidableEq, Repr

/-- `LibraryType`. -/
inductive LibraryType where
  | PairedEnd
  | SingleEnd
  | MatePair
deriving DecidableEq, Repr

/-- `Library`. -/
structure Library where
  id : EntityId
  name : String
  barcode : Barcode
  sample_id : EntityId
  project_id : EntityId
  description : Option String
  design : LibraryDesign
  library_type : LibraryType
  platform : String
  kit_name : Option String
  index : Option DnaIndex
  insert_size : Option Nat
  volume : Option Volume
  concentration : Option Concentration
  qc_status : QcStatus
  pcr_cycles : Option Nat
  low_quality : Bool
  created_by : String
  created_at : Nat
  updated_at : Nat
  archived : Bool
deriving DecidableEq, Repr

/-- `Library::new`. -/
def Library.new (id : EntityId) (name : String) (barcode : Barcode)
    (sample_id project_id : EntityId) (design : LibraryDesign)
    (library_type : LibraryType) (platform created_by : String) (now : Nat) : Library :=
  { id := id, name := name, barcode := barcode, sample_id := sample_id,
    project_id := project_id, description := none, design := design,
    library_type := library_type, platform := platform, kit_name := none,
    index := none, insert_size := none, volume := none, concentration := none,
    qc_status := .NotReady, pcr_cycles := none, low_quality := false,
    created_by := created_by, created_at := now, updated_at := now, archived := false }

/-- `Library::set_index`. -/
def Library.set_index (lib : Library) (index : DnaIndex) (now : Nat) : Library :=
  { lib with index := some index, updated_at := now }

/-- `Library::has_index`. -/
def Library.has_index (lib : Library) : Bool :=
  lib.index.isSome

/-- `Library::can_pool`. -/
def Library.can_pool (lib : Library) : Bool :=
  lib.has_index && lib.qc_status.allows_progression && !lib.archived && !lib.low_quality

/-- `Library::index_distance`: `None` if either library lacks an index. -/
def Library.index_distance (lib other : Library) : Option Nat :=
  match lib.index, other.index with
  | some a, some b => some (a.hamming_distance b)
  | _, _ => none

/-! ## services/index_collision.rs -/

/-- `CollisionCheckConfig`. -/
structure CollisionCheckConfig where
  min_distance : Nat
  check_dual_index : Bool
deriving DecidableEq, Repr

/-- `CollisionCheckConfig::default`: threshold 3, dual-index checking on. -/
def CollisionCheckConfig.default : CollisionCheckConfig :=
  { min_distance := 3, check_dual_index := true }

/-- `IndexCollision`. -/
structure IndexCollision where
  library1 : String
  library2 : String
  index1 : DnaIndex
  index2 : DnaIndex
  distance : Nat
  required_distance : Nat
deriving DecidableEq, Repr

/-- `IndexCollisionChecker`. -/
structure IndexCollisionChecker where
  config : CollisionCheckConfig
deriving DecidableEq, Repr

/-- `IndexCollisionChecker::new`. -/
def IndexCollisionChecker.new : IndexCollisionChecker :=
  { config := CollisionCheckConfig.default }

/-- The shared all-unordered-pairs loop of `check_libraries` /
`check_indices`: for each entry, compare it with every later entry and emit a
collision when the Hamming distance falls below the threshold. -/
def check_pairs {α : Type} (minD : Nat) (nameOf : α → String) (idxOf : α → DnaIndex) :
    List α → List IndexCollision
  | [] => []
  | x :: rest =>
    (rest.filterMap fun y =>
      let distance := (idxOf x).hamming_distance (idxOf y)
      if distance < minD then
        some { library1 := nameOf x, library2 := nameOf y,
               index1 := idxOf x, index2 := idxOf y,
               distance := distance, required_distance := minD }
      else none)
      ++ check_pairs minD nameOf idxOf rest

/-- `IndexCollisionChecker::check_indices`. -/
def IndexCollisionChecker.check_indices (c : IndexCollisionChecker)
    (indices : List (String × DnaIndex)) : List IndexCollision :=
  check_pairs c.config.min_distance Prod.fst Prod.snd indices

/-- `IndexCollisionChecker::check_libraries`: filter to the libraries that
carry an index, then compare all pairs. -/
def IndexCollisionChecker.check_libraries (c : IndexCollisionChecker)
    (libraries : List Library) : List IndexCollision :=
  let indexed := libraries.filterMap fun lib => lib.index.map fun idx => (lib, idx)
  check_pairs c.config.min_distance (fun e => e.1.name) Prod.snd indexed

/-- Entry used as the (never-reached) default of positional lookups in the
pair-list specification below. -/
def defaultIndexEntry : String × DnaIndex :=
  ("", { i7_sequence := "", i5_sequence := none, family := .Custom, name := "" })

/-- Specification-side description of the checker's output, written from the
spec's words: "exactly the unordered pairs (i < j) of entries whose combined
Hamming distance is strictly below the threshold, each reported once with its
computed distance". -/
def collision_pairs_spec (minD : Nat) (l : List (String × DnaIndex)) : List IndexCollision :=
  (List.range l.length).flatMap fun i =>
    ((List.range l.length).filter fun j => decide (i < j)).filterMap fun j =>
      let a := l.getD i defaultIndexEntry
      let b := l.getD j defaultIndexEntry
      let distance := a.2.hamming_distance b.2
      if distance < minD then
        some { library1 := a.1, library2 := b.1, index1 := a.2, index2 := b.2,
               distance := distance, required_distance := minD }
      else none

/-! ## entities/pool.rs and errors.rs (pool part) -/

/-- `PoolError` (errors.rs). -/
inductive PoolError where
  | IndexCollision (lib1 lib2 : String) (distance required : Nat)
  | EmptyPool (name : String)
  | CapacityExceeded (name : String) (cap : Nat)
  | IncompatibleLibraryTypes (t1 t2 : String)
  | AlreadySequenced (name : String)
  | DuplicateLibrary (id : String)
deriving DecidableEq, Repr

/-- `PoolElement`. -/
structure PoolElement where
  library_aliquot_id : EntityId
  library_id : EntityId
  volume : Option Volume
  proportion : Option ℚ
deriving DecidableEq, Repr

/-- `Pool`. -/
structure Pool where
  id : EntityId
  name : String
  barcode : Barcode
  description : Option String
  elements : List PoolElement
  concentration : Option Concentration
  volume : Option Volume
  qc_status : QcStatus
  platform : String
  sequenced : Bool
  created_by : String
  created_at : Nat
  updated_at : Nat
deriving DecidableEq, Repr

/-- `Pool::new`. -/
def Pool.new (id : EntityId) (name : String) (barcode : Barcode)
    (platform created_by : String) (now : Nat) : Pool :=
  { id := id, name := name, barcode := barcode, description := none,
    elements := [], concentration := none, volume := none,
    qc_status := .NotReady, platform := platform, sequenced := false,
    created_by := created_by, created_at := now, updated_at := now }

/-- `Pool::add_element`: duplicate-library check (by `library_id`) before the
push; returns the post-state and the result. -/
def Pool.add_element (p : Pool) (element : PoolElement) (now : Nat) :
    Pool × Except PoolError Unit :=
  if p.elements.any fun e => decide (e.library_id = element.library_id) then
    (p, .error (.DuplicateLibrary (toString element.library_id)))
  else
    ({ p with elements := p.elements ++ [element], updated_at := now }, .ok ())

/-- `Pool::remove_element`: sequenced check, then `retain`, then a
nothing-was-removed check (which the source reports as `DuplicateLibrary`). -/
def Pool.remove_element (p : Pool) (library_aliquot_id : EntityId) (now : Nat) :
    Pool × Except PoolError Unit :=
  if p.sequenced then
    (p, .error (.AlreadySequenced p.name))
  else
    let len_before := p.elements.length
    let retained := p.elements.filter fun e => decide (e.library_aliquot_id ≠ library_aliquot_id)
    if retained.length = len_before then
      ({ p with elements := retained }, .error (.DuplicateLibrary (toString library_aliquot_id)))
    else
      ({ p with elements := retained, updated_at := now }, .ok ())

/-- `Pool::mark_sequenced`. -/
def Pool.mark_sequenced (p : Pool) (now : Nat) : Pool :=
  { p with sequenced := true, updated_at := now }

/-! ## entities/sample.rs -/

/-- `SampleClass`. -/
inductive SampleClass where
  | Plain
  | Identity
  | Tissue
  | TissueProcessing
  | Stock
  | Aliquot
  | SingleCell
  | WholeTranscriptome
deriving DecidableEq, Repr

/-- `PlainSampleData`. -/
structure PlainSampleData where
  scientific_name : String
  sample_type : Option String
deriving DecidableEq, Repr

/-- `DetailedSampleData`. -/
structure DetailedSampleData where
  parent_id : Option EntityId
  sample_class : SampleClass
  external_name : Option String
  tissue_origin : Option String
  tissue_type : Option String
  time_point : Option String
  group_id : Option String
  group_description : Option String
  passage : Option Int
  analyte_type : Option String
  purpose : Option String
deriving DecidableEq, Repr

/-- `SampleDetails`. -/
inductive SampleDetails where
  | Plain (data : PlainSampleData)
  | Detailed (data : DetailedSampleData)
deriving DecidableEq, Repr

/-- `Sample`. -/
structure Sample where
  id : EntityId
  name : String
  barcode : Barcode
  project_id : EntityId
  description : Option String
  details : SampleDetails
  volume : Option Volume
  concentration : Option Concentration
  qc_status : QcStatus
  received_at : Option Nat
  created_by : String
  created_at : Nat
  updated_at : Nat
  archived : Bool
deriving DecidableEq, Repr

/-- `Sample::new_plain`. -/
def Sample.new_plain (id : EntityId) (name : String) (barcode : Barcode)
    (project_id : EntityId) (scientific_name created_by : String) (now : Nat) : Sample :=
  { id := id, name := name, barcode := barcode, project_id := project_id,
    description := none,
    details := .Plain { scientific_name := scientific_name, sample_type := none },
    volume := none, concentration := none, qc_status := .NotReady,
    received_at := some now, created_by := created_by, created_at := now,
    updated_at := now, archived := false }

/-- `Sample::withdraw_volume`: fails when no volume is tracked or when the
subtraction would go negative; the failure leaves the sample untouched. -/
def Sample.withdraw_volume (s : Sample) (amount : Volume) (now : Nat) :
    Sample × Except String Unit :=
  match s.volume with
  | some v =>
      match v.subtract amount with
      | some remaining =>
          ({ s with volume := some remaining, updated_at := now }, .ok ())
      | none => (s, .error "Insufficient volume")
  | none => (s, .error "Sample has no tracked volume")

/-! ## services/barcode_validation.rs -/

/-- Rust `str::trim` (whitespace stripped from both ends). -/
def rustTrim (s : String) : String :=
  String.mk (((s.data.dropWhile Char.isWhitespace).reverse.dropWhile Char.isWhitespace).reverse)

/-- The UTF-8 byte size of one character (Rust `str::len` counts bytes). -/
def charUtf8Size (c : Char) : Nat :=
  if c.toNat < 128 then 1 else if c.toNat < 2048 then 2
  else if c.toNat < 65536 then 3 else 4

/-- Rust `str::len`: UTF-8 byte length. -/
def byteLen (s : String) : Nat :=
  s.data.foldl (fun n c => n + charUtf8Size c) 0

/-- `BarcodeValidationRules`.  (`prefix` is a reserved word in Lean, hence
the `prefix_` field name.) -/
structure BarcodeValidationRules where
  prefix_ : Option String
  min_length : Option Nat
  max_length : Option Nat
  pattern_description : String
deriving DecidableEq, Repr

/-- `BarcodeValidationRules::default`. -/
def BarcodeValidationRules.default : BarcodeValidationRules :=
  { prefix_ := none, min_length := some 3, max_length := some 50,
    pattern_description := "alphanumeric with hyphens and underscores" }

/-- `BarcodeValidationRules::for_samples`. -/
def BarcodeValidationRules.for_samples : BarcodeValidationRules :=
  { prefix_ := some "SAM", min_length := some 6, max_length := some 20,
    pattern_description := "SAM-XXXXXX" }

/-- `BarcodeValidationRules::for_libraries`. -/
def BarcodeValidationRules.for_libraries : BarcodeValidationRules :=
  { prefix_ := some "LIB", min_length := some 6, max_length := some 20,
    pattern_description := "LIB-XXXXXX" }

/-- `BarcodeValidationRules::for_pools`. -/
def BarcodeValidationRules.for_pools : BarcodeValidationRules :=
  { prefix_ := some "POOL", min_length := some 7, max_length := some 20,
    pattern_description := "POOL-XXXXXX" }

/-- `BarcodeValidationRules::for_boxes`. -/
def BarcodeValidationRules.for_boxes : BarcodeValidationRules :=
  { prefix_ := some "BOX", min_length := some 6, max_length := some 20,
    pattern_description := "BOX-XXXXXX" }

/-- The `min_length` early return of `validate_with_rules`. -/
def checkLenMin (s : String) : Option Nat → Option BarcodeError
  | some min =>
      if byteLen s < min then
        some (.InvalidFormat ("Barcode must be at least " ++ toString min ++ " characters"))
      else none
  | none => none

/-- The `max_length` early return of `validate_with_rules`. -/
def checkLenMax (s : String) : Option Nat → Option BarcodeError
  | some max =>
      if byteLen s > max then
        some (.InvalidFormat ("Barcode must be at most " ++ toString max ++ " characters"))
      else none
  | none => none

/-- The prefix early return of `validate_with_rules`. -/
def checkPrefixRule (s : String) (rules : BarcodeValidationRules) : Option BarcodeError :=
  match rules.prefix_ with
  | some p =>
      if ¬ (p.data.isPrefixOf s.data) then
        some (.PatternMismatch s rules.pattern_description)
      else none
  | none => none

/-- `BarcodeValidator`. -/
structure BarcodeValidator where
  default_rules : BarcodeValidationRules
deriving DecidableEq, Repr

/-- `BarcodeValidator::new`. -/
def BarcodeValidator.new : BarcodeValidator :=
  { default_rules := BarcodeValidationRules.default }

/-- `BarcodeValidator::validate_with_rules`: trim, then empty check, then
length bounds, then prefix check, then the character-set check performed by
`Barcode::new`. -/
def BarcodeValidator.validate_with_rules (_v : BarcodeValidator) (barcode : String)
    (rules : BarcodeValidationRules) : Except BarcodeError Barcode :=
  let barcode_str := rustTrim barcode
  if barcode_str.data.isEmpty then .error .Empty
  else
    match checkLenMin barcode_str rules.min_length with
    | some e => .error e
    | none =>
      match checkLenMax barcode_str rules.max_length with
      | some e => .error e
      | none =>
        match checkPrefixRule barcode_str rules with
        | some e => .error e
        | none => Barcode.new barcode_str

/-- `BarcodeValidator::validate`. -/
def BarcodeValidator.validate (v : BarcodeValidator) (barcode : String) :
    Except BarcodeError Barcode :=
  v.validate_with_rules barcode v.default_rules

/-- `BarcodeValidator::validate_sample`. -/
def BarcodeValidator.validate_sample (v : BarcodeValidator) (barcode : String) :
    Except BarcodeError Barcode :=
  v.validate_with_rules barcode BarcodeValidationRules.for_samples

/-- `BarcodeValidator::validate_library`. -/
def BarcodeValidator.validate_library (v : BarcodeValidator) (barcode : String) :
    Except BarcodeError Barcode :=
  v.validate_with_rules barcode BarcodeValidationRules.for_libraries

/-- `BarcodeValidator::validate_pool`. -/
def BarcodeValidator.validate_pool (v : BarcodeValidator) (barcode : String) :
    Except BarcodeError Barcode :=
  v.validate_with_rules barcode BarcodeValidationRules.for_pools

/-! ## Helper lemmas -/

theorem asciiUpper_row_calc (q : Nat) (hq : q < 26) :
    asciiUpper ((65 + q % 256) % 256) = 65 + q := by
  unfold asciiUpper
  split
  · omega
  · omega

theorem col_mod_calc (r : Nat) (hr : r < 255) : (r % 256 + 1) % 256 = r + 1 := by
  omega

theorem row_index_calc (q : Nat) (hq : q < 26) :
    ((65 + q) % 256 + 256 - 65) % 256 = q := by
  omega

theorem col_index_calc (r : Nat) (hr : r < 255) :
    ((r + 1) % 256 + 256 - 1) % 256 = r := by
  omega

theorem div_lt_rows (d : Dimension) (i : Nat) (hi : i < d.capacity) (hcols : 0 < d.cols) :
    i / d.cols < d.rows := by
  rw [Nat.div_lt_iff_lt_mul hcols]
  calc i < d.capacity := hi
  _ = d.rows * d.cols := rfl

theorem cols_pos_of_lt_capacity (d : Dimension) (i : Nat) (hi : i < d.capacity) :
    0 < d.cols := by
  rcases Nat.eq_zero_or_pos d.cols with h | h
  · exfalso
    have : d.capacity = 0 := by simp [Dimension.capacity, h]
    omega
  · exact h

theorem index_to_position_of_lt (d : Dimension) (h2 : d.rows ≤ 26) (h4 : d.cols ≤ 255)
    (i : Nat) (hi : i < d.capacity) :
    d.index_to_position i = some ⟨65 + i / d.cols, i % d.cols + 1⟩ := by
  have hcols : 0 < d.cols := cols_pos_of_lt_capacity d i hi
  have hq : i / d.cols < d.rows := div_lt_rows d i hi hcols
  have hr : i % d.cols < d.cols := Nat.mod_lt _ hcols
  have hq26 : i / d.cols < 26 := by omega
  have hr255 : i % d.cols < 255 := by omega
  unfold Dimension.index_to_position BoxPosition.new_unchecked
  rw [if_neg (by omega : ¬ d.capacity ≤ i)]
  dsimp only
  rw [asciiUpper_row_calc _ hq26, col_mod_calc _ hr255]

theorem to_index_round (d : Dimension) (h2 : d.rows ≤ 26) (h4 : d.cols ≤ 255)
    (i : Nat) (hi : i < d.capacity) :
    (BoxPosition.mk (65 + i / d.cols) (i % d.cols + 1)).to_index d = i := by
  have hcols : 0 < d.cols := cols_pos_of_lt_capacity d i hi
  have hq : i / d.cols < d.rows := div_lt_rows d i hi hcols
  have hr : i % d.cols < d.cols := Nat.mod_lt _ hcols
  have hq26 : i / d.cols < 26 := by omega
  have hr255 : i % d.cols < 255 := by omega
  have hqr : d.cols * (i / d.cols) + i % d.cols = i := Nat.div_add_mod i d.cols
  unfold BoxPosition.to_index BoxPosition.row_index
  rw [row_index_calc _ hq26, col_index_calc _ hr255, Nat.mul_comm]
  exact hqr

theorem zip_filter_length_eq_mismatchCount :
    ∀ (a b : List Char),
      ((a.zip b).filter fun p => p.1 != p.2).length = mismatchCount a b
  | [], b => by simp [mismatchCount]
  | x :: xs, [] => by simp [mismatchCount]
  | x :: xs, y :: ys => by
    have ih := zip_filter_length_eq_mismatchCount xs ys
    simp only [List.zip_cons_cons, List.filter_cons, mismatchCount, List.length_cons,
      Nat.succ_min_succ, List.range_succ_eq_map, List.countP_cons, List.countP_map,
      Function.comp_def, List.getD_cons_zero, List.getD_cons_succ] at *
    by_cases hxy : (x != y) = true
    · simp [hxy, ih]
    · simp [hxy, ih]

theorem zip_filter_length_append (s : List Char) :
    ∀ (t u : List Char), s.length ≤ t.length →
      ((s.zip (t ++ u)).filter fun p => p.1 != p.2).length =
        ((s.zip t).filter fun p => p.1 != p.2).length := by
  induction s with
  | nil => intro t u _; simp
  | cons x xs ih =>
    intro t u h
    cases t with
    | nil => simp at h
    | cons y ys =>
      simp only [List.cons_append, List.zip_cons_cons, List.filter_cons]
      have e := ih ys u (by simpa using h)
      cases hxy : (x, y).1 != (x, y).2 <;> simp [e]

theorem contentsGet_eq_none_iff (c : List (BoxPosition × StorableItem)) (p : BoxPosition) :
    contentsGet c p = none ↔ ∀ e ∈ c, e.1 ≠ p := by
  unfold contentsGet
  rw [Option.map_eq_none', List.find?_eq_none]
  constructor
  · intro h e he
    have := h e he
    simpa using this
  · intro h e he
    simpa using h e he

theorem mem_of_contentsGet_eq_some (c : List (BoxPosition × StorableItem))
    (p : BoxPosition) (it : StorableItem) (h : contentsGet c p = some it) : (p, it) ∈ c := by
  unfold contentsGet at h
  obtain ⟨e, he, h2⟩ := Option.map_eq_some'.mp h
  have hmem := List.mem_of_find?_eq_some he
  have hp := List.find?_some he
  simp only [decide_eq_true_eq] at hp
  have hep : e = (p, it) := by
    obtain ⟨e1, e2⟩ := e
    simp_all
  exact hep ▸ hmem

theorem is_occupied_false_iff (b : StorageBox) (p : BoxPosition) :
    ¬ (b.is_occupied p = true) ↔ ∀ e ∈ b.contents, e.1 ≠ p := by
  unfold StorageBox.is_occupied
  rw [← contentsGet_eq_none_iff]
  cases contentsGet b.contents p <;> simp

theorem contentsRemove_mem (c : List (BoxPosition × StorableItem)) (p : BoxPosition)
    (e : BoxPosition × StorableItem) (h : e ∈ contentsRemove c p) : e ∈ c :=
  (List.mem_filter.mp h).1

theorem contentsRemove_keys_sublist (c : List (BoxPosition × StorableItem)) (p : BoxPosition) :
    ((contentsRemove c p).map Prod.fst).Sublist (c.map Prod.fst) :=
  (List.filter_sublist c).map Prod.fst

theorem place_item_ok_elim (b : StorageBox) (p : BoxPosition) (it : StorableItem)
    (now : Nat) (b' : StorageBox) (h : b.place_item p it now = .ok b') :
    it.item_type = b.storable_type ∧
    b.dimension.is_valid_position p.row p.col = true ∧
    ¬ (b.is_occupied p = true) ∧
    b' = { b with contents := ((p, it) :: b.contents), updated_at := now } := by
  unfold StorageBox.place_item at h
  by_cases h1 : it.item_type ≠ b.storable_type
  · rw [if_pos h1] at h
    exact absurd h (by simp)
  · rw [if_neg h1] at h
    by_cases h2 : ¬ b.dimension.is_valid_position p.row p.col = true
    · rw [if_pos h2] at h
      exact absurd h (by simp)
    · rw [if_neg h2] at h
      by_cases h3 : b.is_occupied p = true
      · rw [if_pos h3] at h
        exact absurd h (by simp)
      · rw [if_neg h3] at h
        injection h with h
        exact ⟨not_not.mp h1, not_not.mp h2, h3, h.symm⟩

theorem move_item_ok_elim (b : StorageBox) (fromPos toPos : BoxPosition)
    (now : Nat) (b' : StorageBox) (h : b.move_item fromPos toPos now = .ok b') :
    ¬ (b.is_occupied toPos = true) ∧
    ∃ item, contentsGet b.contents fromPos = some item ∧
      b' = { b with contents := ((toPos, item) :: contentsRemove b.contents fromPos), updated_at := now } := by
  unfold StorageBox.move_item at h
  by_cases h1 : b.is_occupied toPos = true
  · rw [if_pos h1] at h
    exact absurd h (by simp)
  · rw [if_neg h1] at h
    cases hg : contentsGet b.contents fromPos with
    | none =>
        rw [hg] at h
        exact absurd h (by simp)
    | some item =>
        rw [hg] at h
        injection h with h
        exact ⟨h1, item, rfl, h.symm⟩

theorem new_box_invariant (id : EntityId) (name : String) (d : Dimension)
    (st : StorableType) (now : Nat) : (StorageBox.new id name d st now).box_invariant := by
  refine ⟨?_, ?_, ?_⟩ <;> simp [StorageBox.new, StorageBox.box_invariant]

theorem place_item_preserves_invariant (b : StorageBox) (p : BoxPosition)
    (it : StorableItem) (now : Nat) (b' : StorageBox) (hinv : b.box_invariant)
    (h : b.place_item p it now = .ok b') : b'.box_invariant := by
  obtain ⟨hT, hB, hN⟩ := hinv
  obtain ⟨h1, h2, h3, rfl⟩ := place_item_ok_elim b p it now b' h
  refine ⟨?_, ?_, ?_⟩
  · intro e he
    rcases List.mem_cons.mp he with rfl | he'
    · exact h1
    · exact hT e he'
  · intro e he
    rcases List.mem_cons.mp he with rfl | he'
    · exact h2
    · exact hB e he'
  · simp only [List.map_cons]
    rw [List.nodup_cons]
    refine ⟨?_, hN⟩
    intro hmem
    obtain ⟨e, he, hep⟩ := List.mem_map.mp hmem
    exact (is_occupied_false_iff b p).mp h3 e he hep

theorem remove_item_preserves_invariant (b : StorageBox) (p : BoxPosition)
    (now : Nat) (hinv : b.box_invariant) : ((b.remove_item p now).1).box_invariant := by
  obtain ⟨hT, hB, hN⟩ := hinv
  unfold StorageBox.remove_item
  cases hg : contentsGet b.contents p <;>
    dsimp only <;>
    exact ⟨fun e he => hT e (contentsRemove_mem _ _ _ he),
      fun e he => hB e (contentsRemove_mem _ _ _ he),
      hN.sublist (contentsRemove_keys_sublist b.contents p)⟩

theorem move_item_preserves_parts (b : StorageBox) (fromPos toPos : BoxPosition)
    (now : Nat) (b' : StorageBox) (hinv : b.box_invariant)
    (h : b.move_item fromPos toPos now = .ok b') :
    (∀ e ∈ b'.contents, e.2.item_type = b'.storable_type) ∧
    (b'.contents.map Prod.fst).Nodup ∧
    (b.dimension.is_valid_position toPos.row toPos.col = true → b'.box_invariant) := by
  obtain ⟨hT, hB, hN⟩ := hinv
  obtain ⟨h1, item, hg, rfl⟩ := move_item_ok_elim b fromPos toPos now b' h
  have hitem : (fromPos, item) ∈ b.contents := mem_of_contentsGet_eq_some _ _ _ hg
  have htype : ∀ e ∈ (toPos, item) :: contentsRemove b.contents fromPos,
      e.2.item_type = b.storable_type := by
    intro e he
    rcases List.mem_cons.mp he with rfl | he'
    · exact hT (fromPos, item) hitem
    · exact hT e (contentsRemove_mem _ _ _ he')
  have hnodup : (((toPos, item) :: contentsRemove b.contents fromPos).map Prod.fst).Nodup := by
    simp only [List.map_cons]
    rw [List.nodup_cons]
    refine ⟨?_, hN.sublist (contentsRemove_keys_sublist b.contents fromPos)⟩
    intro hmem
    obtain ⟨e, he, hep⟩ := List.mem_map.mp hmem
    exact (is_occupied_false_iff b toPos).mp h1 e (contentsRemove_mem _ _ _ he) hep
  refine ⟨htype, hnodup, ?_⟩
  intro hvalid
  refine ⟨htype, ?_, hnodup⟩
  intro e he
  rcases List.mem_cons.mp he with rfl | he'
  · exact hvalid
  · exact hB e (contentsRemove_mem _ _ _ he')

theorem apply_op_dimension (b : StorageBox) (op : BoxOp) :
    (b.apply_op op).dimension = b.dimension := by
  cases op with
  | place p it now =>
      simp only [StorageBox.apply_op]
      cases hp : b.place_item p it now with
      | ok b' =>
          obtain ⟨_, _, _, rfl⟩ := place_item_ok_elim b p it now b' hp
          rfl
      | error _ => rfl
  | remove p now =>
      simp only [StorageBox.apply_op]
      unfold StorageBox.remove_item
      cases hg : contentsGet b.contents p <;> rfl
  | move f t now =>
      simp only [StorageBox.apply_op]
      cases hm : b.move_item f t now with
      | ok b' =>
          obtain ⟨_, item, _, rfl⟩ := move_item_ok_elim b f t now b' hm
          rfl
      | error _ => rfl

theorem apply_op_preserves_invariant (b : StorageBox) (op : BoxOp)
    (hinv : b.box_invariant) (hop : op.destInBounds b.dimension) :
    (b.apply_op op).box_invariant := by
  cases op with
  | place p it now =>
      simp only [StorageBox.apply_op]
      cases hp : b.place_item p it now with
      | ok b' => exact place_item_preserves_invariant b p it now b' hinv hp
      | error _ => exact hinv
  | remove p now =>
      exact remove_item_preserves_invariant b p now hinv
  | move f t now =>
      simp only [StorageBox.apply_op]
      cases hm : b.move_item f t now with
      | ok b' =>
          exact (move_item_preserves_parts b f t now b' hinv hm).2.2 hop
      | error _ => exact hinv

theorem foldl_apply_op_invariant (ops : List BoxOp) :
    ∀ (b : StorageBox), b.box_invariant → (∀ op ∈ ops, op.destInBounds b.dimension) →
      (ops.foldl StorageBox.apply_op b).box_invariant := by
  induction ops with
  | nil => intro b hinv _; exact hinv
  | cons op rest ih =>
      intro b hinv hops
      simp only [List.foldl_cons]
      refine ih (b.apply_op op) ?_ ?_
      · exact apply_op_preserves_invariant b op hinv (hops op (List.mem_cons_self op rest))
      · intro o ho
        rw [apply_op_dimension]
        exact hops o (List.mem_cons_of_mem op ho)

theorem filterMap_range_getD {α β : Type} (d : α) (F : α → Option β) :
    ∀ xs : List α,
      (List.range xs.length).filterMap (fun k => F (xs.getD k d)) = xs.filterMap F
  | [] => by simp
  | x :: xs => by
    have ih := filterMap_range_getD d F xs
    simp only [List.length_cons, List.range_succ_eq_map, List.filterMap_cons,
      List.getD_cons_zero, List.filterMap_map, Function.comp_def, List.getD_cons_succ, ih]

theorem collision_pairs_spec_cons (minD : Nat) (x : String × DnaIndex)
    (xs : List (String × DnaIndex)) :
    collision_pairs_spec minD (x :: xs) =
      (xs.filterMap fun y =>
        let distance := x.2.hamming_distance y.2
        if distance < minD then
          some { library1 := x.1, library2 := y.1, index1 := x.2, index2 := y.2,
                 distance := distance, required_distance := minD }
        else none) ++ collision_pairs_spec minD xs := by
  unfold collision_pairs_spec
  simp only [List.length_cons, List.range_succ_eq_map, List.flatMap_cons]
  congr 1
  · -- the i = 0 block: pairs of the head with each tail entry
    rw [List.filter_cons]
    have h0 : decide (0 < 0) = false := by decide
    rw [h0]
    simp only [Bool.false_eq_true, if_false, List.filter_map, List.filterMap_map,
      Function.comp_def, List.getD_cons_zero, List.getD_cons_succ]
    have hfilter : ((List.range xs.length).filter fun a => decide (0 < a.succ)) =
        List.range xs.length := by
      apply List.filter_eq_self.mpr
      intro a _
      simp
    rw [hfilter]
    exact filterMap_range_getD defaultIndexEntry
      (fun y =>
        if x.2.hamming_distance y.2 < minD then
          some (IndexCollision.mk x.1 y.1 x.2 y.2 (x.2.hamming_distance y.2) minD)
        else none)
      xs
  · -- the i ≥ 1 blocks: the specification over the tail, indices shifted by one
    rw [List.flatMap_map]
    congr 1
    funext i
    rw [List.filter_cons]
    have h0 : decide (i.succ < 0) = false := by simp
    rw [h0]
    simp only [Bool.false_eq_true, if_false, List.filter_map, List.filterMap_map,
      Function.comp_def, List.getD_cons_succ, Nat.succ_lt_succ_iff]

theorem check_pairs_eq_spec (minD : Nat) :
    ∀ l : List (String × DnaIndex),
      check_pairs minD Prod.fst Prod.snd l = collision_pairs_spec minD l
  | [] => by simp [check_pairs, collision_pairs_spec]
  | x :: xs => by
    rw [collision_pairs_spec_cons, check_pairs, check_pairs_eq_spec minD xs]

theorem check_pairs_map {α : Type} (minD : Nat) (nameOf : α → String) (idxOf : α → DnaIndex) :
    ∀ l : List α,
      check_pairs minD nameOf idxOf l =
        check_pairs minD Prod.fst Prod.snd (l.map fun a => (nameOf a, idxOf a))
  | [] => rfl
  | x :: rest => by
    simp only [List.map_cons, check_pairs, List.filterMap_map, Function.comp_def]
    rw [← check_pairs_map minD nameOf idxOf rest]

theorem zip_filter_length_symm :
    ∀ (a b : List Char),
      ((a.zip b).filter fun p => p.1 != p.2).length =
        ((b.zip a).filter fun p => p.1 != p.2).length
  | [], b => by simp
  | x :: xs, [] => by simp
  | x :: xs, y :: ys => by
    have ih := zip_filter_length_symm xs ys
    simp only [List.zip_cons_cons, List.filter_cons]
    by_cases hxy : x = y
    · subst hxy
      simp [ih]
    · have h1 : ((x, y).1 != (x, y).2) = true := by simp [hxy]
      have h2 : ((y, x).1 != (y, x).2) = true := by
        simp only [bne_iff_ne]
        exact fun e => hxy e.symm
      rw [h1, h2]
      simp [ih]

theorem zip_filter_length_eq_zero_iff (a : List Char) :
    ∀ b : List Char, a.length = b.length →
      (((a.zip b).filter fun p => p.1 != p.2).length = 0 ↔ a = b) := by
  induction a with
  | nil =>
    intro b h
    cases b with
    | nil => simp
    | cons y ys => simp at h
  | cons x xs ih =>
    intro b h
    cases b with
    | nil => simp at h
    | cons y ys =>
      have e := ih ys (by simpa using h)
      simp only [List.zip_cons_cons, List.filter_cons]
      by_cases hxy : x = y
      · subst hxy
        simp [e]
      · have h1 : ((x, y).1 != (x, y).2) = true := by simp [hxy]
        rw [h1]
        simp [hxy]

theorem sequence_hamming_symm (s t : String) :
    DnaIndex.sequence_hamming_distance s t = DnaIndex.sequence_hamming_distance t s :=
  zip_filter_length_symm s.data t.data

theorem sequence_hamming_eq_zero_iff (s t : String) (h : s.data.length = t.data.length) :
    DnaIndex.sequence_hamming_distance s t = 0 ↔ s = t := by
  unfold DnaIndex.sequence_hamming_distance
  rw [zip_filter_length_eq_zero_iff s.data t.data h]
  constructor
  · intro hdata
    exact String.ext hdata
  · intro hs
    rw [hs]

theorem pool_add_duplicate (p : Pool) (e : PoolElement) (now : Nat)
    (h : ∃ e' ∈ p.elements, e'.library_id = e.library_id) :
    p.add_element e now = (p, .error (.DuplicateLibrary (toString e.library_id))) := by
  unfold Pool.add_element
  have hc : (p.elements.any fun e' => decide (e'.library_id = e.library_id)) = true := by
    rw [List.any_eq_true]
    obtain ⟨e', he', heq⟩ := h
    exact ⟨e', he', by simpa using heq⟩
  rw [if_pos hc]

theorem pool_add_fresh (p : Pool) (e : PoolElement) (now : Nat)
    (h : ∀ e' ∈ p.elements, e'.library_id ≠ e.library_id) :
    p.add_element e now =
      ({ p with elements := p.elements ++ [e], updated_at := now }, .ok ()) := by
  unfold Pool.add_element
  rw [if_neg]
  intro hc
  rw [List.any_eq_true] at hc
  obtain ⟨e', he', heq⟩ := hc
  exact h e' he' (by simpa using heq)

theorem pool_remove_sequenced (p : Pool) (aid : EntityId) (now : Nat)
    (h : p.sequenced = true) :
    p.remove_element aid now = (p, .error (.AlreadySequenced p.name)) := by
  unfold Pool.remove_element
  rw [if_pos h]

theorem pool_remove_not_found (p : Pool) (aid : EntityId) (now : Nat)
    (hs : p.sequenced = false) (h : ∀ e ∈ p.elements, e.library_aliquot_id ≠ aid) :
    p.remove_element aid now = (p, .error (.DuplicateLibrary (toString aid))) := by
  unfold Pool.remove_element
  rw [if_neg (by simp [hs])]
  dsimp only
  have hfe : (p.elements.filter fun e => decide (e.library_aliquot_id ≠ aid)) = p.elements := by
    apply List.filter_eq_self.mpr
    intro e he
    simpa using h e he
  rw [hfe, if_pos rfl]

theorem pool_remove_found (p : Pool) (aid : EntityId) (now : Nat)
    (hs : p.sequenced = false) (h : ∃ e ∈ p.elements, e.library_aliquot_id = aid) :
    p.remove_element aid now =
      ({ p with
          elements := (p.elements.filter fun e => decide (e.library_aliquot_id ≠ aid)),
          updated_at := now }, .ok ()) := by
  unfold Pool.remove_element
  rw [if_neg (by simp [hs])]
  dsimp only
  rw [if_neg]
  obtain ⟨e, he, heq⟩ := h
  have hlt : (p.elements.filter fun e => decide (e.library_aliquot_id ≠ aid)).length <
      p.elements.length := by
    apply List.length_filter_lt_length_iff_exists.mpr
    exact ⟨e, he, by simp [heq]⟩
  omega

theorem volume_subtract_none_iff (v amount : Volume) :
    v.subtract amount = none ↔ v.value_ul < amount.value_ul := by
  unfold Volume.subtract
  dsimp only
  by_cases h : v.value_ul - amount.value_ul < 0
  · rw [if_pos h]
    simp [sub_neg.mp h]
  · rw [if_neg h]
    constructor
    · intro habs
      exact absurd habs (by simp)
    · intro hlt
      exact absurd (sub_neg.mpr hlt) h

theorem volume_subtract_some (v amount : Volume) (hle : amount.value_ul ≤ v.value_ul) :
    v.subtract amount =
      some { value_ul := v.value_ul - amount.value_ul, display_unit := v.display_unit } := by
  unfold Volume.subtract
  dsimp only
  rw [if_neg (not_lt.mpr (sub_nonneg.mpr hle))]

theorem sample_withdraw_no_volume (s : Sample) (amount : Volume) (now : Nat)
    (h : s.volume = none) :
    s.withdraw_volume amount now = (s, .error "Sample has no tracked volume") := by
  unfold Sample.withdraw_volume
  rw [h]

theorem sample_withdraw_insufficient (s : Sample) (v amount : Volume) (now : Nat)
    (h : s.volume = some v) (hlt : v.value_ul < amount.value_ul) :
    s.withdraw_volume amount now = (s, .error "Insufficient volume") := by
  unfold Sample.withdraw_volume
  rw [h]
  dsimp only
  rw [(volume_subtract_none_iff v amount).mpr hlt]

theorem sample_withdraw_success (s : Sample) (v amount : Volume) (now : Nat)
    (h : s.volume = some v) (hle : amount.value_ul ≤ v.value_ul) :
    s.withdraw_volume amount now =
      ({ s with
          volume := some { value_ul := v.value_ul - amount.value_ul,
                           display_unit := v.display_unit },
          updated_at := now }, .ok ()) := by
  unfold Sample.withdraw_volume
  rw [h]
  dsimp only
  rw [volume_subtract_some v amount hle]

theorem validate_empty_first (v : BarcodeValidator) (s : String)
    (rules : BarcodeValidationRules) (h : (rustTrim s).data.isEmpty = true) :
    v.validate_with_rules s rules = .error .Empty := by
  unfold BarcodeValidator.validate_with_rules
  dsimp only
  rw [if_pos h]

theorem validate_too_short (v : BarcodeValidator) (s : String)
    (rules : BarcodeValidationRules) (m : Nat) (hm : rules.min_length = some m)
    (hne : (rustTrim s).data.isEmpty = false) (hlen : byteLen (rustTrim s) < m) :
    v.validate_with_rules s rules =
      .error (.InvalidFormat ("Barcode must be at least " ++ toString m ++ " characters")) := by
  unfold BarcodeValidator.validate_with_rules
  dsimp only
  rw [if_neg (by simp [hne])]
  have hc : checkLenMin (rustTrim s) rules.min_length =
      some (.InvalidFormat ("Barcode must be at least " ++ toString m ++ " characters")) := by
    rw [hm]
    unfold checkLenMin
    dsimp only
    rw [if_pos hlen]
  rw [hc]

theorem validate_prefix_mismatch (v : BarcodeValidator) (s : String)
    (rules : BarcodeValidationRules) (pre : String) (hp : rules.prefix_ = some pre)
    (hne : (rustTrim s).data.isEmpty = false)
    (hmin : checkLenMin (rustTrim s) rules.min_length = none)
    (hmax : checkLenMax (rustTrim s) rules.max_length = none)
    (hpre : pre.data.isPrefixOf (rustTrim s).data = false) :
    v.validate_with_rules s rules =
      .error (.PatternMismatch (rustTrim s) rules.pattern_description) := by
  unfold BarcodeValidator.validate_with_rules
  dsimp only
  rw [if_neg (by simp [hne])]
  rw [hmin]
  dsimp only
  rw [hmax]
  dsimp only
  have hc : checkPrefixRule (rustTrim s) rules =
      some (.PatternMismatch (rustTrim s) rules.pattern_description) := by
    unfold checkPrefixRule
    rw [hp]
    dsimp only
    rw [if_pos (by simp [hpre])]
  rw [hc]

/-! ## Claim theorems -/

/-- C4: for every `Dimension` with `1 ≤ rows ≤ 26` and `1 ≤ cols` (`cols` is
a `u8`, hence `≤ 255`), `index_to_position i` returns a position that
`to_index` maps back to `i` for every `i < capacity`, and returns `none` for
every `i ≥ capacity`. -/
theorem spec_c4_index_roundtrip (d : Dimension) (h1 : 1 ≤ d.rows) (h2 : d.rows ≤ 26)
    (h3 : 1 ≤ d.cols) (h4 : d.cols ≤ 255) :
    (∀ i, i < d.capacity →
      ∃ p, d.index_to_position i = some p ∧ p.to_index d = i) ∧
    (∀ i, d.capacity ≤ i → d.index_to_position i = none) := by
  constructor
  · intro i hi
    exact ⟨⟨65 + i / d.cols, i % d.cols + 1⟩,
      index_to_position_of_lt d h2 h4 i hi, to_index_round d h2 h4 i hi⟩
  · intro i hi
    unfold Dimension.index_to_position
    rw [if_pos hi]

/-- A fresh 2x2 sample box (id 1, name "BOX"). -/
def c1_box0 : StorageBox :=
  StorageBox.new 1 "BOX" ⟨2, 2⟩ .Sample 0

/-- `c1_box0` after placing sample 1 at the valid position A1. -/
def c1_box1 : StorageBox :=
  ((c1_box0.place_item (BoxPosition.new_unchecked 65 1) ⟨.Sample, 1⟩ 1).toOption).getD c1_box0

/-- `c1_box1` after moving the item from A1 to the out-of-bounds position Z9
(constructed via `new_unchecked`); `move_item` accepts it. -/
def c1_box2 : StorageBox :=
  ((c1_box1.move_item (BoxPosition.new_unchecked 65 1) (BoxPosition.new_unchecked 90 9) 2).toOption).getD c1_box1

/-- C1 counterexample: the invariant is NOT preserved by every box operation
with arbitrary `BoxPosition` arguments.  Starting from a fresh 2x2 box
satisfying the invariant, placing an item at A1 and then `move_item`-ing it
to the `new_unchecked` position Z9 succeeds and leaves the box with an
occupied position outside the `Dimension` bounds. -/
theorem spec_c1_counterexample :
    c1_box0.box_invariant ∧
    c1_box0.place_item (BoxPosition.new_unchecked 65 1) ⟨.Sample, 1⟩ 1 = .ok c1_box1 ∧
    c1_box1.box_invariant ∧
    c1_box1.move_item (BoxPosition.new_unchecked 65 1) (BoxPosition.new_unchecked 90 9) 2 =
      .ok c1_box2 ∧
    ¬ c1_box2.box_invariant := by
  refine ⟨by decide, by decide, by decide, by decide, by decide⟩

/-- C1 amended: the invariant holds for a freshly constructed box and is
preserved by `place_item` and `remove_item` for arbitrary arguments;
`move_item` always preserves the type-conformance and position-uniqueness
parts, but preserves the bounds part (and hence the full invariant) only
when its destination is in-bounds — and consequently the invariant is
preserved over every operation sequence in which each `move_item`
destination lies within the box's own `Dimension`. -/
theorem spec_c1_invariant_amended :
    (∀ (id : EntityId) (name : String) (d : Dimension) (st : StorableType) (now : Nat),
      (StorageBox.new id name d st now).box_invariant) ∧
    (∀ (b : StorageBox) (p : BoxPosition) (it : StorableItem) (now : Nat) (b' : StorageBox),
      b.box_invariant → b.place_item p it now = .ok b' → b'.box_invariant) ∧
    (∀ (b : StorageBox) (p : BoxPosition) (now : Nat),
      b.box_invariant → ((b.remove_item p now).1).box_invariant) ∧
    (∀ (b : StorageBox) (fromPos toPos : BoxPosition) (now : Nat) (b' : StorageBox),
      b.box_invariant → b.move_item fromPos toPos now = .ok b' →
        (∀ e ∈ b'.contents, e.2.item_type = b'.storable_type) ∧
        (b'.contents.map Prod.fst).Nodup ∧
        (b.dimension.is_valid_position toPos.row toPos.col = true → b'.box_invariant)) ∧
    (∀ (ops : List BoxOp) (b : StorageBox),
      b.box_invariant → (∀ op ∈ ops, op.destInBounds b.dimension) →
        (ops.foldl StorageBox.apply_op b).box_invariant) :=
  ⟨new_box_invariant,
   place_item_preserves_invariant,
   remove_item_preserves_invariant,
   move_item_preserves_parts,
   fun ops b => foldl_apply_op_invariant ops b⟩

/-- C1 witness: the amended preservation statements applied to a concrete
2x2 box: placing at A1 preserves the invariant, and the two-operation
sequence place-A1-then-move-to-B2 (in-bounds) preserves it as well. -/
theorem spec_c1_invariant_amended_witness :
    c1_box1.box_invariant ∧
    (([BoxOp.place (BoxPosition.new_unchecked 65 1) ⟨.Sample, 1⟩ 1,
       BoxOp.move (BoxPosition.new_unchecked 65 1) (BoxPosition.new_unchecked 66 2) 2].foldl
        StorageBox.apply_op c1_box0).box_invariant) :=
  ⟨spec_c1_invariant_amended.2.1 c1_box0 (BoxPosition.new_unchecked 65 1) ⟨.Sample, 1⟩ 1
      c1_box1 (by decide) (by decide),
   spec_c1_invariant_amended.2.2.2.2
      [BoxOp.place (BoxPosition.new_unchecked 65 1) ⟨.Sample, 1⟩ 1,
       BoxOp.move (BoxPosition.new_unchecked 65 1) (BoxPosition.new_unchecked 66 2) 2]
      c1_box0 (by decide) (by decide)⟩

/-- C2: `hamming_distance` equals the positional mismatch count over the
zipped (shorter) length of the i7 strands, plus the analogous i5 count when
both indices carry an i5 strand and `0` otherwise; and the trailing tail of a
longer strand never contributes (appending to the longer strand leaves the
per-strand distance unchanged). -/
theorem spec_c2_hamming_distance_def :
    (∀ a b : DnaIndex,
      a.hamming_distance b =
        mismatchCount a.i7_sequence.data b.i7_sequence.data +
          match a.i5_sequence, b.i5_sequence with
          | some x, some y => mismatchCount x.data y.data
          | _, _ => 0) ∧
    (∀ s t u : String, s.data.length ≤ t.data.length →
      DnaIndex.sequence_hamming_distance s (t ++ u) =
        DnaIndex.sequence_hamming_distance s t) := by
  constructor
  · intro a b
    unfold DnaIndex.hamming_distance DnaIndex.sequence_hamming_distance
    dsimp only
    rw [zip_filter_length_eq_mismatchCount]
    congr 1
    cases a.i5_sequence <;> cases b.i5_sequence <;>
      simp [zip_filter_length_eq_mismatchCount]
  · intro s t u h
    unfold DnaIndex.sequence_hamming_distance
    rw [String.data_append]
    exact zip_filter_length_append s.data t.data u.data h

/-- C2 witness: the tail-truncation clause applied to concrete strands. -/
theorem spec_c2_hamming_distance_def_witness :
    DnaIndex.sequence_hamming_distance "ATC" ("ATG" ++ "CCC") =
      DnaIndex.sequence_hamming_distance "ATC" "ATG" :=
  spec_c2_hamming_distance_def.2 "ATC" "ATG" "CCC" (by decide)

/-- Test library with index "ATCACG" (as in the repository's tests). -/
def c3_lib1 : Library :=
  (Library.new 1 "LIB1" (Barcode.new_unchecked "LIB-001") 1 1 .Wgs .PairedEnd
    "Illumina" "admin" 0).set_index
      { i7_sequence := "ATCACG", i5_sequence := none, family := .TruSeq, name := "LIB1" } 0

/-- Test library with index "ATCACN" (one base from `c3_lib1`). -/
def c3_lib2 : Library :=
  (Library.new 2 "LIB2" (Barcode.new_unchecked "LIB-002") 1 1 .Wgs .PairedEnd
    "Illumina" "admin" 0).set_index
      { i7_sequence := "ATCACN", i5_sequence := none, family := .TruSeq, name := "LIB2" } 0

/-- Test library with index "TTAGGC". -/
def c3_lib3 : Library :=
  (Library.new 3 "LIB3" (Barcode.new_unchecked "LIB-003") 1 1 .Wgs .PairedEnd
    "Illumina" "admin" 0).set_index
      { i7_sequence := "TTAGGC", i5_sequence := none, family := .TruSeq, name := "LIB3" } 0

/-- C3: `check_libraries` first drops libraries without an index and then
behaves as `check_indices` on the remaining `(name, index)` entries;
`check_indices` returns exactly the unordered pairs `(i, j)` with `i < j`
whose Hamming distance is strictly below the threshold, each reported once
with its computed distance (stated as equality with the positional pair-list
specification); and, concretely, at the default threshold 3 the pair
"ATCACG"/"ATCACN" yields exactly one collision of distance 1, while
"ATCACG"/"TTAGGC" yields none. -/
theorem spec_c3_collision_checker :
    (∀ (c : IndexCollisionChecker) (libraries : List Library),
      c.check_libraries libraries =
        c.check_indices (libraries.filterMap fun lib =>
          lib.index.map fun idx => (lib.name, idx))) ∧
    (∀ (c : IndexCollisionChecker) (indices : List (String × DnaIndex)),
      c.check_indices indices = collision_pairs_spec c.config.min_distance indices) ∧
    IndexCollisionChecker.new.check_libraries [c3_lib1, c3_lib2] =
      [{ library1 := "LIB1", library2 := "LIB2",
         index1 := { i7_sequence := "ATCACG", i5_sequence := none,
                     family := .TruSeq, name := "LIB1" },
         index2 := { i7_sequence := "ATCACN", i5_sequence := none,
                     family := .TruSeq, name := "LIB2" },
         distance := 1, required_distance := 3 }] ∧
    IndexCollisionChecker.new.check_libraries [c3_lib1, c3_lib3] = [] := by
  refine ⟨?_, ?_, by decide, by decide⟩
  · intro c libraries
    unfold IndexCollisionChecker.check_libraries IndexCollisionChecker.check_indices
    dsimp only
    rw [check_pairs_map c.config.min_distance
      (fun e : Library × DnaIndex => e.1.name) Prod.snd
      (libraries.filterMap fun lib => lib.index.map fun idx => (lib, idx))]
    congr 1
    rw [List.map_filterMap]
    congr 1
    funext lib
    cases lib.index <;> rfl
  · intro c indices
    exact check_pairs_eq_spec c.config.min_distance indices

/-- C5: for libraries whose indices have equal i7 lengths and whose i5
segments are either both present with equal lengths or both absent, the
index distance is symmetric, and it is 0 exactly when the index sequences
(i7, and i5 when present) are identical. -/
theorem spec_c5_distance_symm_zero (a b : Library) (ia ib : DnaIndex)
    (ha : a.index = some ia) (hb : b.index = some ib)
    (h7 : ia.i7_sequence.data.length = ib.i7_sequence.data.length)
    (h5 : (∃ x y, ia.i5_sequence = some x ∧ ib.i5_sequence = some y ∧
            x.data.length = y.data.length) ∨
          (ia.i5_sequence = none ∧ ib.i5_sequence = none)) :
    a.index_distance b = b.index_distance a ∧
    (a.index_distance b = some 0 ↔
      ia.i7_sequence = ib.i7_sequence ∧ ia.i5_sequence = ib.i5_sequence) := by
  unfold Library.index_distance
  rw [ha, hb]
  dsimp only
  constructor
  · refine congrArg some ?_
    unfold DnaIndex.hamming_distance
    dsimp only
    rw [sequence_hamming_symm]
    congr 1
    rcases h5 with ⟨x, y, hx, hy, _⟩ | ⟨hx, hy⟩
    · rw [hx, hy]
      exact sequence_hamming_symm x y
    · rw [hx, hy]
  · rw [Option.some_inj]
    unfold DnaIndex.hamming_distance
    dsimp only
    rcases h5 with ⟨x, y, hx, hy, hlen⟩ | ⟨hx, hy⟩
    · rw [hx, hy]
      dsimp only
      rw [Nat.add_eq_zero, sequence_hamming_eq_zero_iff _ _ h7,
        sequence_hamming_eq_zero_iff _ _ hlen]
      simp
    · rw [hx, hy]
      dsimp only
      rw [Nat.add_eq_zero, sequence_hamming_eq_zero_iff _ _ h7]
      simp

/-- Library carrying the single index "ATCACG". -/
def c5_lib_a : Library :=
  (Library.new 10 "A" (Barcode.new_unchecked "LIB-A") 1 1 .Wgs .PairedEnd
    "Illumina" "admin" 0).set_index
      { i7_sequence := "ATCACG", i5_sequence := none, family := .TruSeq, name := "A01" } 0

/-- Library carrying the single index "ATCACN". -/
def c5_lib_b : Library :=
  (Library.new 11 "B" (Barcode.new_unchecked "LIB-B") 1 1 .Wgs .PairedEnd
    "Illumina" "admin" 0).set_index
      { i7_sequence := "ATCACN", i5_sequence := none, family := .TruSeq, name := "A02" } 0

/-- C5 witness: symmetry and the zero-iff characterization on the concrete
equal-length pair "ATCACG"/"ATCACN". -/
theorem spec_c5_distance_symm_zero_witness :
    c5_lib_a.index_distance c5_lib_b = c5_lib_b.index_distance c5_lib_a ∧
    (c5_lib_a.index_distance c5_lib_b = some 0 ↔
      ("ATCACG" : String) = "ATCACN" ∧ (none : Option String) = none) :=
  spec_c5_distance_symm_zero c5_lib_a c5_lib_b
    { i7_sequence := "ATCACG", i5_sequence := none, family := .TruSeq, name := "A01" }
    { i7_sequence := "ATCACN", i5_sequence := none, family := .TruSeq, name := "A02" }
    rfl rfl (by decide) (Or.inr ⟨rfl, rfl⟩)

/-- C6: `add_element` fails with `DuplicateLibrary` and leaves the pool
exactly as it was whenever some existing element shares the new element's
`library_id` (even under a different aliquot id); otherwise it succeeds and
appends the element at the end. -/
theorem spec_c6_add_element (p : Pool) (e : PoolElement) (now : Nat) :
    ((∃ e' ∈ p.elements, e'.library_id = e.library_id) →
      p.add_element e now = (p, .error (.DuplicateLibrary (toString e.library_id)))) ∧
    ((∀ e' ∈ p.elements, e'.library_id ≠ e.library_id) →
      p.add_element e now =
        ({ p with elements := p.elements ++ [e], updated_at := now }, .ok ())) :=
  ⟨pool_add_duplicate p e now, pool_add_fresh p e now⟩

/-- Empty test pool. -/
def c6_pool0 : Pool :=
  Pool.new 1 "POOL001" (Barcode.new_unchecked "POOL-001") "Illumina" "admin" 0

/-- Aliquot 1 of library 1. -/
def c6_el1 : PoolElement :=
  { library_aliquot_id := 1, library_id := 1, volume := none, proportion := none }

/-- Aliquot 2 of the same library 1. -/
def c6_el2 : PoolElement :=
  { library_aliquot_id := 2, library_id := 1, volume := none, proportion := none }

/-- `c6_pool0` after the first (successful) `add_element`. -/
def c6_pool1 : Pool :=
  (c6_pool0.add_element c6_el1 1).1

/-- C6 witness: the first add succeeds and appends; adding a second aliquot
of the same library fails with `DuplicateLibrary` and leaves the pool
unchanged. -/
theorem spec_c6_add_element_witness :
    c6_pool0.add_element c6_el1 1 =
      ({ c6_pool0 with elements := c6_pool0.elements ++ [c6_el1], updated_at := 1 }, .ok ()) ∧
    c6_pool1.add_element c6_el2 2 =
      (c6_pool1, .error (.DuplicateLibrary (toString c6_el2.library_id))) :=
  ⟨(spec_c6_add_element c6_pool0 c6_el1 1).2 (by decide),
   (spec_c6_add_element c6_pool1 c6_el2 2).1 (by decide)⟩

/-- C7: `remove_element` fails with `AlreadySequenced` on a sequenced pool
regardless of whether the aliquot is present, fails when no element carries
the aliquot id, and otherwise removes exactly the element(s) with that id;
in both failing cases the returned pool is exactly the input pool. -/
theorem spec_c7_remove_element (p : Pool) (aid : EntityId) (now : Nat) :
    (p.sequenced = true →
      p.remove_element aid now = (p, .error (.AlreadySequenced p.name))) ∧
    (p.sequenced = false → (∀ e ∈ p.elements, e.library_aliquot_id ≠ aid) →
      p.remove_element aid now = (p, .error (.DuplicateLibrary (toString aid)))) ∧
    (p.sequenced = false → (∃ e ∈ p.elements, e.library_aliquot_id = aid) →
      p.remove_element aid now =
        ({ p with
            elements := (p.elements.filter fun e => decide (e.library_aliquot_id ≠ aid)),
            updated_at := now }, .ok ())) :=
  ⟨pool_remove_sequenced p aid now,
   pool_remove_not_found p aid now,
   pool_remove_found p aid now⟩

/-- A pool holding aliquot 1 of library 1. -/
def c7_pool : Pool :=
  { c6_pool0 with elements := [c6_el1] }

/-- The same pool marked sequenced. -/
def c7_pool_seq : Pool :=
  c7_pool.mark_sequenced 3

/-- C7 witness: removal from the sequenced pool fails with
`AlreadySequenced`; removing an absent aliquot from the live pool fails with
the `DuplicateLibrary`-variant error; removing aliquot 1 succeeds and
filters it out. -/
theorem spec_c7_remove_element_witness :
    c7_pool_seq.remove_element 1 4 =
      (c7_pool_seq, .error (.AlreadySequenced c7_pool_seq.name)) ∧
    c7_pool.remove_element 99 4 =
      (c7_pool, .error (.DuplicateLibrary (toString (99 : EntityId)))) ∧
    c7_pool.remove_element 1 4 =
      ({ c7_pool with
          elements := (c7_pool.elements.filter fun e => decide (e.library_aliquot_id ≠ 1)),
          updated_at := 4 }, .ok ()) :=
  ⟨(spec_c7_remove_element c7_pool_seq 1 4).1 (by decide),
   (spec_c7_remove_element c7_pool 99 4).2.1 (by decide) (by decide),
   (spec_c7_remove_element c7_pool 1 4).2.2 (by decide) (by decide)⟩

/-- C10: on a non-sequenced pool, removing an aliquot id that appears in no
element fails specifically with the `DuplicateLibrary` variant carrying the
aliquot id rendered as a string — the `PoolError` taxonomy has no dedicated
not-found variant, and the source reuses this one. -/
theorem spec_c10_remove_not_found_variant (p : Pool) (aid : EntityId) (now : Nat)
    (hs : p.sequenced = false) (h : ∀ e ∈ p.elements, e.library_aliquot_id ≠ aid) :
    (p.remove_element aid now).2 = .error (.DuplicateLibrary (toString aid)) := by
  rw [pool_remove_not_found p aid now hs h]

/-- A live (non-sequenced) pool holding only aliquot 7 of library 3. -/
def c10_pool : Pool :=
  { c6_pool0 with
      elements := [{ library_aliquot_id := 7, library_id := 3, volume := none,
                     proportion := none }] }

/-- C10 witness: removing the absent aliquot 42 from `c10_pool` yields the
`DuplicateLibrary` variant with payload "42". -/
theorem spec_c10_remove_not_found_variant_witness :
    (c10_pool.remove_element 42 9).2 = .error (.DuplicateLibrary (toString (42 : EntityId))) :=
  spec_c10_remove_not_found_variant c10_pool 42 9 (by decide) (by decide)

/-- C8: `withdraw_volume` fails (leaving the sample untouched, never
clamping) when no volume is tracked or when the remainder would be negative,
and on success decreases the volume by exactly the amount; at the value
level `subtract` is `none` exactly when the subtrahend exceeds the current
volume, with 100µL − 30µL = 70µL and 10µL − 20µL = none. -/
theorem spec_c8_withdraw_volume :
    (∀ (s : Sample) (amount : Volume) (now : Nat), s.volume = none →
      s.withdraw_volume amount now = (s, .error "Sample has no tracked volume")) ∧
    (∀ (s : Sample) (v amount : Volume) (now : Nat), s.volume = some v →
      v.value_ul < amount.value_ul →
      s.withdraw_volume amount now = (s, .error "Insufficient volume")) ∧
    (∀ (s : Sample) (v amount : Volume) (now : Nat), s.volume = some v →
      amount.value_ul ≤ v.value_ul →
      s.withdraw_volume amount now =
        ({ s with
            volume := some { value_ul := v.value_ul - amount.value_ul,
                             display_unit := v.display_unit },
            updated_at := now }, .ok ())) ∧
    (∀ v amount : Volume, v.subtract amount = none ↔ v.value_ul < amount.value_ul) ∧
    (Volume.microliters 100).subtract (Volume.microliters 30) =
      some (Volume.microliters 70) ∧
    (Volume.microliters 10).subtract (Volume.microliters 20) = none := by
  refine ⟨sample_withdraw_no_volume, sample_withdraw_insufficient,
    sample_withdraw_success, volume_subtract_none_iff, ?_, ?_⟩
  · with_unfolding_all decide
  · with_unfolding_all decide

/-- A plain sample tracking 100 µL. -/
def c8_sample : Sample :=
  { Sample.new_plain 1 "SAM001" (Barcode.new_unchecked "SAM-001") 1
      "Homo sapiens" "admin" 0 with
    volume := some (Volume.microliters 100) }

/-- A plain sample tracking only 10 µL. -/
def c8_sample_low : Sample :=
  { Sample.new_plain 2 "SAM002" (Barcode.new_unchecked "SAM-002") 1
      "Homo sapiens" "admin" 0 with
    volume := some (Volume.microliters 10) }

/-- C8 witness: withdrawing 30 µL from the 100 µL sample succeeds with
exactly 70 µL left; withdrawing 20 µL from the 10 µL sample fails and leaves
it unchanged. -/
theorem spec_c8_withdraw_volume_witness :
    c8_sample.withdraw_volume (Volume.microliters 30) 5 =
      ({ c8_sample with
          volume := some (Volume.mk ((Volume.microliters 100).value_ul - (Volume.microliters 30).value_ul) (Volume.microliters 100).display_unit),
          updated_at := 5 }, .ok ()) ∧
    c8_sample_low.withdraw_volume (Volume.microliters 20) 5 =
      (c8_sample_low, .error "Insufficient volume") :=
  ⟨spec_c8_withdraw_volume.2.2.1 c8_sample (Volume.microliters 100)
      (Volume.microliters 30) 5 rfl (by with_unfolding_all decide),
   spec_c8_withdraw_volume.2.1 c8_sample_low (Volume.microliters 10)
      (Volume.microliters 20) 5 rfl (by with_unfolding_all decide)⟩

/-- C9: `validate_with_rules` applies its checks in the order empty →
length bounds → prefix → character set and returns the error of the first
failing check — in particular a too-short candidate fails with the length
`InvalidFormat` error whatever its prefix, and a wrong-prefix candidate that
passes both length bounds fails with `PatternMismatch`; under the sample
preset, "SAM-12345" validates, "LIB-12345" fails with `PatternMismatch`,
and "SAM-1" fails with the length `InvalidFormat` error. -/
theorem spec_c9_validation_order :
    (∀ (v : BarcodeValidator) (s : String) (rules : BarcodeValidationRules),
      (rustTrim s).data.isEmpty = true →
      v.validate_with_rules s rules = .error .Empty) ∧
    (∀ (v : BarcodeValidator) (s : String) (rules : BarcodeValidationRules) (m : Nat),
      rules.min_length = some m → (rustTrim s).data.isEmpty = false →
      byteLen (rustTrim s) < m →
      v.validate_with_rules s rules =
        .error (.InvalidFormat ("Barcode must be at least " ++ toString m ++ " characters"))) ∧
    (∀ (v : BarcodeValidator) (s : String) (rules : BarcodeValidationRules) (pre : String),
      rules.prefix_ = some pre → (rustTrim s).data.isEmpty = false →
      checkLenMin (rustTrim s) rules.min_length = none →
      checkLenMax (rustTrim s) rules.max_length = none →
      pre.data.isPrefixOf (rustTrim s).data = false →
      v.validate_with_rules s rules =
        .error (.PatternMismatch (rustTrim s) rules.pattern_description)) ∧
    BarcodeValidator.new.validate_sample "SAM-12345" = .ok (Barcode.mk "SAM-12345") ∧
    BarcodeValidator.new.validate_sample "LIB-12345" =
      .error (.PatternMismatch "LIB-12345" "SAM-XXXXXX") ∧
    BarcodeValidator.new.validate_sample "SAM-1" =
      .error (.InvalidFormat "Barcode must be at least 6 characters") :=
  ⟨validate_empty_first, validate_too_short, validate_prefix_mismatch,
   by decide, by decide, by decide⟩

/-- C9 witness: the length check fires before the prefix check on the
concrete too-short sample candidate "SAM-1" (and on "XY-1", whose prefix is
also wrong, the reported error is still the length error). -/
theorem spec_c9_validation_order_witness :
    BarcodeValidator.new.validate_with_rules "SAM-1" BarcodeValidationRules.for_samples =
      .error (.InvalidFormat ("Barcode must be at least " ++ toString (6 : Nat) ++ " characters")) ∧
    BarcodeValidator.new.validate_with_rules "XY-1" BarcodeValidationRules.for_samples =
      .error (.InvalidFormat ("Barcode must be at least " ++ toString (6 : Nat) ++ " characters")) :=
  ⟨spec_c9_validation_order.2.1 BarcodeValidator.new "SAM-1"
      BarcodeValidationRules.for_samples 6 rfl (by decide) (by decide),
   spec_c9_validation_order.2.1 BarcodeValidator.new "XY-1"
      BarcodeValidationRules.for_samples 6 rfl (by decide) (by decide)⟩

/-- C4 witness: the round trip on the 8x12 plate at index 13, and `none` at
index 96. -/
theorem spec_c4_index_roundtrip_witness :
    (∃ p, (Dimension.mk 8 12).index_to_position 13 = some p ∧
      p.to_index (Dimension.mk 8 12) = 13) ∧
    (Dimension.mk 8 12).index_to_position 96 = none :=
  ⟨(spec_c4_index_roundtrip ⟨8, 12⟩ (by decide) (by decide) (by decide) (by decide)).1
      13 (by decide),
   (spec_c4_index_roundtrip ⟨8, 12⟩ (by decide) (by decide) (by decide) (by decide)).2
      96 (by decide)⟩

end Miso
